import Mathlib

/-!
Verification of the USB-HID keyboard driver simulation (kbd.c, kbd1.c,
kbd2.c, keyboard.c) against its design specification.

The repository contains four variants of the same driver/simulator pair.
Each variant gets its own namespace below, with Lean definitions that
shallowly embed the corresponding C functions:

* `Kbd`       — kbd.c       (threaded URB workers, no termination handling)
* `Kbd1`      — kbd1.c      (adds termination flag, end-of-input sentinel,
                              resource cleanup)
* `Kbd2`      — kbd2.c      (deviant variant: press forces LED on, release
                              forces LED off, print also lower-cases)
* `Keyboard`  — keyboard.c  (fully sequential driver: the irq and event
                              threads are joined immediately, so each byte is
                              processed to completion, including the control
                              command/ack handshake, before the next read)
* `KbdConc`   — an interleaving semantics for kbd.c's threaded URB machinery
                 (interrupt worker chain, LED workers, the hardware-side
                 acknowledgment listener), used for schedule-dependent
                 properties.

Machine integers: all the C values involved are small non-negative ints
(LED state 0/1, byte counters), modelled as `Nat`.  Bytes read from the
pipes are modelled as `Char` (the C code reads single `char`s of printable
ASCII).  A failed or zero-length `read` is modelled as `Option.none`.
-/

/-! ## Protocol constants (identical `#define`s in all four source files) -/

def NO_EVENT : Char := '#'

def CAPSLOCK_PRESS : Char := '@'

def CAPSLOCK_RELEASE : Char := '&'

/-- Sentinel only present in kbd1.c (`END_OF_INPUT`). -/
def END_OF_INPUT : Char := '$'

def LED_ON : Nat := 1

def LED_OFF : Nat := 0

namespace Kbd

/-!
Embedding of kbd.c.  The driver-side state touched by the interrupt /
event chain: the global `capslock_state`, the input device's `led` field,
the shared-memory LED cell `*(kbd.leds)`, and the process stdout.

In kbd.c only the interrupt worker chain reads the interrupt pipe and
mutates `capslock_state` / `dev->led` (each worker resubmits the interrupt
URB only after it has finished processing its byte, and nothing else ever
submits the interrupt URB), so the per-byte processing is sequential and
is embedded as a function on this state.  The LED (control) workers touch
only the `active` flag and the command/ack pipes; they are modelled in
`KbdConc`.
-/

structure DrvState where
  /-- `kbd.dev->led` -/
  dev_led : Nat
  /-- global `int capslock_state` (C int used as a boolean) -/
  capslock_state : Bool
  /-- the shared memory LED cell `*(kbd.leds)` -/
  leds_cell : Nat
  /-- log of every driver-side store to the LED cell: value stored, and
      whether `leds_lock` was held at the store (kbd.c lines 167-169). -/
  cell_writes : List (Nat × Bool)
  /-- number of calls to `usb_submit_urb(kbd.led_urb)` made by
      `usb_kbd_event` (kbd.c line 172). -/
  led_submits : Nat
  /-- characters printed to stdout by `print_char` -/
  output : List Char
  deriving DecidableEq, Repr

/-- kbd.c lines 73-78: upper-case lowercase letters when capslock is on,
print the byte unchanged otherwise.  Returns the printed character. -/
def print_char (capslock_state : Bool) (ch : Char) : Char :=
  if capslock_state ∧ 'a' ≤ ch ∧ ch ≤ 'z' then
    Char.ofNat (ch.toNat - 'a'.toNat + 'A'.toNat)
  else ch

/-- kbd.c lines 158-173 (`usb_kbd_event`): synchronise `capslock_state`
with `dev->led`, store the LED state to the shared cell under
`leds_lock`, and submit the LED URB. -/
def usb_kbd_event (s : DrvState) : DrvState :=
  let caps :=
    if s.dev_led = LED_ON ∧ s.capslock_state = false then true
    else if s.dev_led = LED_OFF ∧ s.capslock_state = true then false
    else s.capslock_state
  let v := if s.dev_led ≠ 0 then LED_ON else LED_OFF
  { s with capslock_state := caps,
           leds_cell := v,
           cell_writes := s.cell_writes ++ [(v, true)],
           led_submits := s.led_submits + 1 }

/-- kbd.c lines 150-155 (`input_report_key`): for a capslock code, set
`dev->led` to `value` and run the event callback. -/
def input_report_key (s : DrvState) (code : Char) (value : Nat) : DrvState :=
  if code = CAPSLOCK_PRESS ∨ code = CAPSLOCK_RELEASE then
    usb_kbd_event { s with dev_led := value }
  else s

/-- kbd.c lines 97-124 (`usb_kbd_irq`), the `n > 0` path: processing of
one byte read from the interrupt pipe. -/
def usb_kbd_irq (s : DrvState) (ch : Char) : DrvState :=
  if ch = NO_EVENT then s
  else if ch = CAPSLOCK_PRESS then
    input_report_key s CAPSLOCK_PRESS (if s.dev_led = LED_ON then LED_OFF else LED_ON)
  else if ch = CAPSLOCK_RELEASE then
    input_report_key s CAPSLOCK_RELEASE s.dev_led
  else
    { s with output := s.output ++ [print_char s.capslock_state ch] }

/-- Successive interrupt-worker executions on a stream of successfully
read bytes. -/
def run (s : DrvState) : List Char → DrvState
  | [] => s
  | ch :: rest => run (usb_kbd_irq s ch) rest

/-- Driver state at startup: `dev->led = LED_OFF` (usb_kbd_open),
`capslock_state = 0`, and the keyboard process initialised the shared
cell with `*leds = LED_OFF` (kbd.c line 321). -/
def init : DrvState :=
  { dev_led := LED_OFF, capslock_state := false, leds_cell := LED_OFF,
    cell_writes := [], led_submits := 0, output := [] }

/-- kbd.c lines 37-42: the URB fields read or written by `usb_submit_urb`. -/
structure Urb where
  endpoint_type : Nat
  active : Bool
  deriving DecidableEq, Repr

/-- kbd.c lines 81-94 (`usb_submit_urb`): if the URB is already active the
call returns at once; otherwise it marks the URB active and spawns a
detached worker thread.  The boolean records whether a thread was created. -/
def usb_submit_urb (u : Urb) : Urb × Bool :=
  if u.active then (u, false)
  else ({ u with active := true }, true)

end Kbd

namespace Kbd2

/-!
Embedding of kbd2.c.  This variant deviates from the others:
`print_char` (lines 88-96) additionally lower-cases uppercase letters when
capslock is off, and `usb_kbd_irq` (lines 134-159) reports `LED_ON` for a
press and `LED_OFF` for a release instead of toggling.  `usb_kbd_event`
(lines 99-127) itself performs the command/ack exchange and prints
"\nON\n" / "\nOFF\n" on a state change.
-/

structure DrvState where
  dev_led : Nat
  capslock_state : Bool
  leds_cell : Nat
  cmds_sent : Nat
  acks_read : Nat
  output : List Char
  deriving DecidableEq, Repr

/-- kbd2.c lines 88-96: upper-case lowercase letters when capslock is on,
and lower-case uppercase letters when capslock is off. -/
def print_char (capslock_state : Bool) (ch : Char) : Char :=
  if capslock_state ∧ 'a' ≤ ch ∧ ch ≤ 'z' then
    Char.ofNat (ch.toNat - 'a'.toNat + 'A'.toNat)
  else if capslock_state = false ∧ 'A' ≤ ch ∧ ch ≤ 'Z' then
    Char.ofNat (ch.toNat - 'A'.toNat + 'a'.toNat)
  else ch

/-- kbd2.c lines 99-127 (`usb_kbd_event`): store `dev->led` to the shared
cell, send the command byte, read the ack, then synchronise
`capslock_state` printing "\nON\n" or "\nOFF\n" on a change. -/
def usb_kbd_event (s : DrvState) : DrvState :=
  let s1 := { s with leds_cell := s.dev_led,
                     cmds_sent := s.cmds_sent + 1,
                     acks_read := s.acks_read + 1 }
  if s1.dev_led = LED_ON ∧ s1.capslock_state = false then
    { s1 with capslock_state := true, output := s1.output ++ ['\n', 'O', 'N', '\n'] }
  else if s1.dev_led = LED_OFF ∧ s1.capslock_state = true then
    { s1 with capslock_state := false, output := s1.output ++ ['\n', 'O', 'F', 'F', '\n'] }
  else s1

/-- kbd2.c lines 172-181 (`input_report_key`): set `dev->led` and run the
event callback (spawned and, in the sequential schedule, run to
completion here). -/
def input_report_key (s : DrvState) (code : Char) (value : Nat) : DrvState :=
  if code = CAPSLOCK_PRESS ∨ code = CAPSLOCK_RELEASE then
    usb_kbd_event { s with dev_led := value }
  else s

/-- kbd2.c lines 134-159 (`usb_kbd_irq`): press reports `LED_ON`,
release reports `LED_OFF` (no toggle). -/
def usb_kbd_irq (s : DrvState) (ch : Char) : DrvState :=
  if ch = NO_EVENT then s
  else if ch = CAPSLOCK_PRESS then input_report_key s CAPSLOCK_PRESS LED_ON
  else if ch = CAPSLOCK_RELEASE then input_report_key s CAPSLOCK_RELEASE LED_OFF
  else { s with output := s.output ++ [print_char s.capslock_state ch] }

def run (s : DrvState) : List Char → DrvState
  | [] => s
  | ch :: rest => run (usb_kbd_irq s ch) rest

def init : DrvState :=
  { dev_led := LED_OFF, capslock_state := false, leds_cell := LED_OFF,
    cmds_sent := 0, acks_read := 0, output := [] }

/-- kbd2.c lines 32-43: the URB fields read or written by
`usb_submit_urb`; `thread = 0` means no endpoint thread was created yet. -/
structure Urb where
  active : Bool
  thread : Nat
  deriving DecidableEq, Repr

/-- kbd2.c lines 184-203 (`usb_submit_urb`): returns -1 if the URB is
already active; otherwise marks it active and creates an endpoint thread
only on first-time submission (`thread == 0`).  The boolean records
whether a thread was created; the integer is the C return value. -/
def usb_submit_urb (u : Urb) : Urb × Bool × Int :=
  if u.active then (u, false, -1)
  else ({ active := true, thread := if u.thread = 0 then 1 else u.thread },
        u.thread == 0, 0)

end Kbd2

namespace Keyboard

/-!
Embedding of keyboard.c.  The driver here is sequential: the main loop
reads a byte, spawns the irq thread and joins it; `input_report_key`
spawns the event thread and joins it; the event handler itself writes the
command byte and blocks on the ack.  So one run of the loop body fully
processes a byte, and the embedding returns the ordered trace of
externally visible operations. -/

/-- Externally visible operations of the keyboard.c driver loop. -/
inductive Ev where
  /-- one byte consumed from the interrupt pipe -/
  | readByte (ch : Char)
  /-- command byte "C" written to the control pipe -/
  | sendCmd
  /-- blocking read of one acknowledgment byte -/
  | recvAck
  /-- character echoed to stdout -/
  | printed (ch : Char)
  deriving DecidableEq, Repr

structure St where
  dev_led : Nat
  capslock_state : Bool
  leds_cell : Nat
  deriving DecidableEq, Repr

/-- keyboard.c lines 51-57: like kbd.c's `print_char` but a newline is
not echoed. -/
def print_char (capslock_state : Bool) (ch : Char) : Char :=
  if capslock_state ∧ 'a' ≤ ch ∧ ch ≤ 'z' then
    Char.ofNat (ch.toNat - 'a'.toNat + 'A'.toNat)
  else ch

/-- keyboard.c lines 60-77 (`usb_kbd_event`): synchronise capslock, store
the LED cell (unlocked in this variant), then send the command byte and
block for the ack. -/
def usb_kbd_event (s : St) : St × List Ev :=
  let caps :=
    if s.dev_led = LED_ON ∧ s.capslock_state = false then true
    else if s.dev_led = LED_OFF ∧ s.capslock_state = true then false
    else s.capslock_state
  let v := if s.dev_led ≠ 0 then LED_ON else LED_OFF
  ({ dev_led := s.dev_led, capslock_state := caps, leds_cell := v },
   [Ev.sendCmd, Ev.recvAck])

/-- keyboard.c lines 95-103 (`input_report_key`): set `dev->led`, spawn
the event thread and join it (so the handshake completes here). -/
def input_report_key (s : St) (code : Char) (value : Nat) : St × List Ev :=
  if code = CAPSLOCK_PRESS ∨ code = CAPSLOCK_RELEASE then
    usb_kbd_event { s with dev_led := value }
  else (s, [])

/-- keyboard.c lines 80-92 (`usb_kbd_irq`): press toggles via
`input_report_key`; a release is skipped entirely; anything else is
echoed (unless the transform leaves a newline). -/
def usb_kbd_irq (s : St) (ch : Char) : St × List Ev :=
  if ch = CAPSLOCK_PRESS then
    input_report_key s CAPSLOCK_PRESS (if s.dev_led = LED_ON then LED_OFF else LED_ON)
  else if ch = CAPSLOCK_RELEASE then (s, [])
  else
    (s, let c := print_char s.capslock_state ch
        if c = '\n' then [] else [Ev.printed c])

/-- keyboard.c lines 144-159: the driver main loop over successfully read
bytes, producing the final state and the ordered operation trace. -/
def run (s : St) : List Char → St × List Ev
  | [] => (s, [])
  | ch :: rest =>
    let p := if ch = NO_EVENT then (s, ([] : List Ev)) else usb_kbd_irq s ch
    let r2 := run p.1 rest
    (r2.1, Ev.readByte ch :: p.2 ++ r2.2)

def init : St := { dev_led := LED_OFF, capslock_state := false, leds_cell := LED_OFF }

end Keyboard

namespace Kbd1

/-!
Embedding of kbd1.c.  Same event logic as kbd.c, plus: a global
`should_terminate` flag and a cross-process `terminate_flag` cell, the
`END_OF_INPUT` sentinel, terminal handling of failed reads, and an
idempotency-relevant `cleanup_resources` routine.  `usb_submit_urb`
(lines 88-100) refuses to spawn when `should_terminate` is set, so the
boolean returned by the worker embeddings records whether the URB was
actually resubmitted.
-/

structure KState where
  /-- global `volatile int should_terminate` -/
  should_terminate : Bool
  /-- the shared-memory cell `*(kbd.terminate_flag)` -/
  terminate_flag : Bool
  dev_led : Nat
  capslock_state : Bool
  leds_cell : Nat
  cell_writes : List (Nat × Bool)
  /-- command bytes written on the control pipe by the LED worker -/
  cmds_sent : Nat
  output : List Char
  deriving DecidableEq, Repr

/-- kbd1.c lines 80-85: identical to kbd.c's `print_char`. -/
def print_char (capslock_state : Bool) (ch : Char) : Char :=
  if capslock_state ∧ 'a' ≤ ch ∧ ch ≤ 'z' then
    Char.ofNat (ch.toNat - 'a'.toNat + 'A'.toNat)
  else ch

/-- kbd1.c lines 178-193 (`usb_kbd_event`): identical to kbd.c's. -/
def usb_kbd_event (s : KState) : KState :=
  let caps :=
    if s.dev_led = LED_ON ∧ s.capslock_state = false then true
    else if s.dev_led = LED_OFF ∧ s.capslock_state = true then false
    else s.capslock_state
  let v := if s.dev_led ≠ 0 then LED_ON else LED_OFF
  { s with capslock_state := caps,
           leds_cell := v,
           cell_writes := s.cell_writes ++ [(v, true)] }

/-- kbd1.c lines 170-175 (`input_report_key`). -/
def input_report_key (s : KState) (code : Char) (value : Nat) : KState :=
  if code = CAPSLOCK_PRESS ∨ code = CAPSLOCK_RELEASE then
    usb_kbd_event { s with dev_led := value }
  else s

/-- kbd1.c lines 103-138 (`usb_kbd_irq`): one interrupt-worker execution.
`r` is the result of the one-byte read (`none` models `n <= 0`, an
error or zero-length read).  The returned boolean records whether the
worker resubmitted its URB. -/
def usb_kbd_irq (s : KState) (r : Option Char) : KState × Bool :=
  if s.should_terminate ∨ s.terminate_flag then
    ({ s with should_terminate := true }, false)
  else
    match r with
    | none => ({ s with should_terminate := true }, false)
    | some ch =>
      if ch = END_OF_INPUT then ({ s with should_terminate := true }, false)
      else
        let s2 :=
          if ch = NO_EVENT then s
          else if ch = CAPSLOCK_PRESS then
            input_report_key s CAPSLOCK_PRESS (if s.dev_led = LED_ON then LED_OFF else LED_ON)
          else if ch = CAPSLOCK_RELEASE then
            input_report_key s CAPSLOCK_RELEASE s.dev_led
          else { s with output := s.output ++ [print_char s.capslock_state ch] }
        (s2, !s2.should_terminate)

/-- kbd1.c lines 141-167 (`usb_kbd_led`): one LED-worker execution.
Sends the command byte, then `ack` is the result of the blocking ack
read (`none` models `n <= 0`).  The returned boolean records whether the
worker resubmitted its URB. -/
def usb_kbd_led (s : KState) (ack : Option Char) : KState × Bool :=
  if s.should_terminate ∨ s.terminate_flag then
    ({ s with should_terminate := true }, false)
  else
    let s1 := { s with cmds_sent := s.cmds_sent + 1 }
    match ack with
    | none => ({ s1 with should_terminate := true }, false)
    | some _ => (s1, !s1.should_terminate)

/-- The interrupt-worker chain over a stream of read results; the chain
stops as soon as a worker does not resubmit its URB. -/
def run (s : KState) : List (Option Char) → KState
  | [] => s
  | r :: rest =>
    if (usb_kbd_irq s r).2 then run (usb_kbd_irq s r).1 rest
    else (usb_kbd_irq s r).1

/-- kbd1.c startup state (usb_kbd_open; the keyboard process initialises
both shared cells to 0, kbd1.c lines 415 and 438). -/
def initK : KState :=
  { should_terminate := false, terminate_flag := false,
    dev_led := LED_OFF, capslock_state := false, leds_cell := LED_OFF,
    cell_writes := [], cmds_sent := 0, output := [] }

/-- One releasable resource as `cleanup_resources` sees it: `guard` is
the condition the code tests before releasing (pointer non-NULL /
mapping valid / fd ≥ 0), `live` is whether the underlying resource is
still allocated.  kbd1.c never resets the guards after releasing, which
is exactly what this model captures. -/
structure Res where
  guard : Bool
  live : Bool
  deriving DecidableEq, Repr

/-- A guarded release (`free` / `munmap` / `close`): if the guard holds,
the resource is released; releasing an already-released resource is an
invalid operation (double free / double unmap / double close), counted
by the second component. -/
def freeRes (r : Res) : Res × Nat :=
  if r.guard then ({ r with live := false }, if r.live then 0 else 1)
  else (r, 0)

/-- The resources owned by the kbd1.c driver process, in the order
`cleanup_resources` releases them. -/
structure KbdRes where
  dev : Res
  int_urb : Res
  led_urb : Res
  leds : Res
  terminate_map : Res
  int_ep_fd : Res
  ctrl_cmd_fd : Res
  ctrl_ack_fd : Res
  /-- whether `leds_lock` is still an initialised mutex
      (`pthread_mutex_destroy` is called unconditionally) -/
  mutex_live : Bool
  deriving DecidableEq, Repr

/-- kbd1.c lines 196-214 (`cleanup_resources`): release every resource
whose guard holds, then destroy the mutex unconditionally.  The guards
(`kbd.dev`, fds, mapping pointers) are never reset.  Returns the new
resource state and the number of invalid releases performed by this
call. -/
def cleanup_resources (s : KbdRes) : KbdRes × Nat :=
  let d := freeRes s.dev
  let iu := freeRes s.int_urb
  let lu := freeRes s.led_urb
  let lm := freeRes s.leds
  let tm := freeRes s.terminate_map
  let g1 := freeRes s.int_ep_fd
  let g2 := freeRes s.ctrl_cmd_fd
  let g3 := freeRes s.ctrl_ack_fd
  let mf := if s.mutex_live then 0 else 1
  ({ dev := d.1, int_urb := iu.1, led_urb := lu.1, leds := lm.1,
     terminate_map := tm.1, int_ep_fd := g1.1, ctrl_cmd_fd := g2.1,
     ctrl_ack_fd := g3.1, mutex_live := false },
   d.2 + iu.2 + lu.2 + lm.2 + tm.2 + g1.2 + g2.2 + g3.2 + mf)

/-- The resource state after a successful `usb_kbd_open`: every pointer
is non-NULL, every fd is ≥ 0, every resource allocated, the mutex
initialised. -/
def openedRes : KbdRes :=
  { dev := ⟨true, true⟩, int_urb := ⟨true, true⟩, led_urb := ⟨true, true⟩,
    leds := ⟨true, true⟩, terminate_map := ⟨true, true⟩,
    int_ep_fd := ⟨true, true⟩, ctrl_cmd_fd := ⟨true, true⟩,
    ctrl_ack_fd := ⟨true, true⟩, mutex_live := true }

end Kbd1

namespace KbdConc

/-!
Interleaving semantics for kbd.c's threaded URB machinery.

Threads: the interrupt-worker chain (`usb_kbd_irq`, one live chain), the
LED workers (`usb_kbd_led`, possibly several live at once), and the
hardware-side `control_listener` that acknowledges each command byte.

Each worker is a program counter; an `Act` names one atomic step of one
thread, and `doAct` executes it if it is enabled (a disabled step —
e.g. a blocked ack read — returns `none`).  A schedule is a list of
actions, so `runActs s acts = some t` exhibits a legal execution of the
program from `s` to `t`.
-/

/-- Program counter of a LED worker (kbd.c lines 127-147).
`p0`: about to clear the active flag; `p1`: about to write the command
byte; `p2`: blocked reading the ack; `p3`: about to resubmit; `pdone`:
exited. -/
inductive LedPC where
  | p0 | p1 | p2 | p3 | pdone
  deriving DecidableEq, Repr

/-- Program counter of an interrupt worker (kbd.c lines 97-124).
`q0`: about to clear the active flag; `q1`: blocked reading one byte;
`q2 ch`: has read `ch`, about to process it; `q3`: about to resubmit;
`qdone`: exited. -/
inductive IrqPC where
  | q0 | q1 | q2 (ch : Char) | q3 | qdone
  deriving DecidableEq, Repr

structure MState where
  /-- bytes still in the interrupt pipe -/
  input : List Char
  /-- `kbd.int_urb->active` -/
  irq_active : Bool
  /-- `kbd.led_urb->active` -/
  led_active : Bool
  irq_workers : List IrqPC
  led_workers : List LedPC
  /-- the sequential driver state (capslock, dev->led, LED cell, stdout) -/
  core : Kbd.DrvState
  /-- command bytes written to the control pipe -/
  cmds_sent : Nat
  /-- acks written by the hardware-side listener -/
  acks_produced : Nat
  /-- acks consumed by LED workers -/
  acks_read : Nat
  /-- set when a command byte is written while a previous command's ack
      has not yet been read -/
  violation : Bool
  deriving DecidableEq, Repr

/-- One schedulable atomic step: which thread moves. -/
inductive Act where
  | ledClear (i : Nat)
  | ledSend (i : Nat)
  | ledRecv (i : Nat)
  | ledResubmit (i : Nat)
  | irqClear (i : Nat)
  | irqRead (i : Nat)
  | irqProcess (i : Nat)
  | irqResubmit (i : Nat)
  | listenerAck
  deriving DecidableEq, Repr

/-- Execute one atomic step if it is enabled. -/
def doAct (s : MState) : Act → Option MState
  | .ledClear i =>
    match s.led_workers.get? i with
    | some LedPC.p0 =>
      some { s with led_active := false, led_workers := s.led_workers.set i LedPC.p1 }
    | _ => none
  | .ledSend i =>
    match s.led_workers.get? i with
    | some LedPC.p1 =>
      some { s with cmds_sent := s.cmds_sent + 1,
                    violation := s.violation || decide (s.acks_read < s.cmds_sent),
                    led_workers := s.led_workers.set i LedPC.p2 }
    | _ => none
  | .ledRecv i =>
    match s.led_workers.get? i with
    | some LedPC.p2 =>
      if s.acks_read < s.acks_produced then
        some { s with acks_read := s.acks_read + 1,
                      led_workers := s.led_workers.set i LedPC.p3 }
      else none
    | _ => none
  | .ledResubmit i =>
    match s.led_workers.get? i with
    | some LedPC.p3 =>
      some { s with led_workers :=
                      (s.led_workers.set i LedPC.pdone)
                        ++ (if s.led_active then [] else [LedPC.p0]),
                    led_active := true }
    | _ => none
  | .irqClear i =>
    match s.irq_workers.get? i with
    | some IrqPC.q0 =>
      some { s with irq_active := false, irq_workers := s.irq_workers.set i IrqPC.q1 }
    | _ => none
  | .irqRead i =>
    match s.irq_workers.get? i with
    | some IrqPC.q1 =>
      match s.input with
      | ch :: rest =>
        some { s with input := rest, irq_workers := s.irq_workers.set i (IrqPC.q2 ch) }
      | [] => some { s with irq_workers := s.irq_workers.set i IrqPC.qdone }
    | _ => none
  | .irqProcess i =>
    match s.irq_workers.get? i with
    | some (IrqPC.q2 ch) =>
      let ev := ch == CAPSLOCK_PRESS || ch == CAPSLOCK_RELEASE
      some { s with core := Kbd.usb_kbd_irq s.core ch,
                    irq_workers := s.irq_workers.set i IrqPC.q3,
                    led_workers :=
                      s.led_workers ++ (if ev && !s.led_active then [LedPC.p0] else []),
                    led_active := s.led_active || ev }
    | _ => none
  | .irqResubmit i =>
    match s.irq_workers.get? i with
    | some IrqPC.q3 =>
      some { s with irq_workers :=
                      (s.irq_workers.set i IrqPC.qdone)
                        ++ (if s.irq_active then [] else [IrqPC.q0]),
                    irq_active := true }
    | _ => none
  | .listenerAck =>
    if s.acks_produced < s.cmds_sent then
      some { s with acks_produced := s.acks_produced + 1 }
    else none

/-- Run a schedule (list of atomic steps); fails if any step is not
enabled. -/
def runActs (s : MState) : List Act → Option MState
  | [] => some s
  | a :: rest =>
    match doAct s a with
    | some t => runActs t rest
    | none => none

/-- kbd.c state right after `usb_kbd_open`: both URBs submitted (one
worker each, both active flags set), pipes empty of acks, the given
bytes pending in the interrupt pipe. -/
def initC (inp : List Char) : MState :=
  { input := inp, irq_active := true, led_active := true,
    irq_workers := [IrqPC.q0], led_workers := [LedPC.p0],
    core := Kbd.init, cmds_sent := 0, acks_produced := 0, acks_read := 0,
    violation := false }

/-- A schedule for input "@": the startup LED worker clears its active
flag and writes a command byte; while that command's ack is still
outstanding the interrupt worker processes the press, whose
`usb_submit_urb(kbd.led_urb)` finds the active flag cleared and spawns a
second LED worker; the second worker writes a second command byte. -/
def doubleCmdSched : List Act :=
  [Act.ledClear 0, Act.ledSend 0, Act.irqClear 0, Act.irqRead 0,
   Act.irqProcess 0, Act.ledClear 1, Act.ledSend 1]

/-- The state `doubleCmdSched` reaches from `initC ['@']`. -/
def doubleCmdState : MState :=
  { input := [], irq_active := false, led_active := false,
    irq_workers := [IrqPC.q3], led_workers := [LedPC.p2, LedPC.p2],
    core := { dev_led := 1, capslock_state := true, leds_cell := 1,
              cell_writes := [(1, true)], led_submits := 1, output := [] },
    cmds_sent := 2, acks_produced := 0, acks_read := 0, violation := true }

/-- A schedule for input "@b": the interrupt worker processes the press
(the startup LED worker is still active, so the event's submit is a
no-op), resubmits itself, and the next worker reads and echoes 'b' —
all before any LED worker has even sent a command, let alone received
an ack. -/
def noWaitSched : List Act :=
  [Act.irqClear 0, Act.irqRead 0, Act.irqProcess 0, Act.irqResubmit 0,
   Act.irqClear 1, Act.irqRead 1, Act.irqProcess 1]

/-- The state `noWaitSched` reaches from `initC ['@', 'b']`. -/
def noWaitState : MState :=
  { input := [], irq_active := false, led_active := true,
    irq_workers := [IrqPC.qdone, IrqPC.q3], led_workers := [LedPC.p0],
    core := { dev_led := 1, capslock_state := true, leds_cell := 1,
              cell_writes := [(1, true)], led_submits := 1, output := ['B'] },
    cmds_sent := 0, acks_produced := 0, acks_read := 0, violation := false }

/-- A schedule for input "&": the interrupt worker processes the
capslock release (no state change), and the LED worker then writes a
command byte on the control pipe. -/
def releaseCmdSched : List Act :=
  [Act.irqClear 0, Act.irqRead 0, Act.irqProcess 0, Act.ledClear 0, Act.ledSend 0]

/-- The state `releaseCmdSched` reaches from `initC ['&']`. -/
def releaseCmdState : MState :=
  { input := [], irq_active := false, led_active := false,
    irq_workers := [IrqPC.q3], led_workers := [LedPC.p2],
    core := { dev_led := 0, capslock_state := false, leds_cell := 0,
              cell_writes := [(0, true)], led_submits := 1, output := [] },
    cmds_sent := 1, acks_produced := 0, acks_read := 0, violation := false }

end KbdConc

namespace Kbd

/-- Invariant for claim C9: `dev->led` is a valid LED value and
`capslock_state` mirrors it. -/
def LedInv (s : DrvState) : Prop :=
  (s.dev_led = LED_OFF ∨ s.dev_led = LED_ON) ∧
  (s.capslock_state = true ↔ s.dev_led = LED_ON)

/-- Invariant for claim C10: the shared LED cell holds 0 or 1, and every
logged store to it stored 0 or 1 while holding `leds_lock`. -/
def CellInv (s : DrvState) : Prop :=
  (s.leds_cell = 0 ∨ s.leds_cell = 1) ∧
  s.cell_writes.all (fun w => (w.1 == 0 || w.1 == 1) && w.2) = true

end Kbd

namespace Kbd1

/-- Claim C10's invariant for the kbd1.c variant. -/
def CellInv (s : KState) : Prop :=
  (s.leds_cell = 0 ∨ s.leds_cell = 1) ∧
  s.cell_writes.all (fun w => (w.1 == 0 || w.1 == 1) && w.2) = true

end Kbd1

/-! ## Claim theorems -/

/-- C1 (counterexample): the claim states that a non-sentinel byte which
is not a lowercase letter (or is read with capslock off) is echoed
unchanged, and cites kbd2.c's `print_char`; but kbd2.c echoes the
uppercase input byte 'A' as 'a' when capslock is off. -/
theorem c1_kbd2_uppercase_not_unchanged :
    (Kbd2.usb_kbd_irq Kbd2.init 'A').output = ['a'] ∧
    Kbd2.init.capslock_state = false ∧ ('a' : Char) ≠ 'A' := by
  decide

/-- C1 (amended): in kbd.c (and identically kbd1.c / keyboard.c), the
interrupt handler echoes every non-sentinel byte case-transformed with
the capslock state in effect when the byte was read — upper-cased exactly
when it is a lowercase letter and `capslock_state` holds, unchanged
otherwise — and the scenario a,A,press,b,B from capslock off yields
output "aABB" with the LED left on. -/
theorem c1_echo_case_transform :
    (∀ (s : Kbd.DrvState) (ch : Char),
        ch ≠ NO_EVENT → ch ≠ CAPSLOCK_PRESS → ch ≠ CAPSLOCK_RELEASE →
          (Kbd.usb_kbd_irq s ch).output
              = s.output ++ [Kbd.print_char s.capslock_state ch] ∧
            Kbd.print_char s.capslock_state ch
              = (if s.capslock_state ∧ 'a' ≤ ch ∧ ch ≤ 'z' then
                   Char.ofNat (ch.toNat - 'a'.toNat + 'A'.toNat)
                 else ch)) ∧
      (Kbd.run Kbd.init ['a', 'A', '@', 'b', 'B']).output = ['a', 'A', 'B', 'B'] ∧
      (Kbd.run Kbd.init ['a', 'A', '@', 'b', 'B']).dev_led = LED_ON ∧
      (Kbd.run Kbd.init ['a', 'A', '@', 'b', 'B']).leds_cell = LED_ON := by
  refine ⟨fun s ch h1 h2 h3 => ?_, by decide, by decide, by decide⟩
  unfold Kbd.usb_kbd_irq
  rw [if_neg h1, if_neg h2, if_neg h3]
  exact ⟨rfl, rfl⟩

/-- C1 (witness): the echo characterisation applied to the startup state
and the concrete non-sentinel byte 'x'. -/
theorem c1_echo_case_transform_witness :
    (Kbd.usb_kbd_irq Kbd.init 'x').output
        = Kbd.init.output ++ [Kbd.print_char Kbd.init.capslock_state 'x'] ∧
      Kbd.print_char Kbd.init.capslock_state 'x'
        = (if Kbd.init.capslock_state ∧ 'a' ≤ 'x' ∧ 'x' ≤ 'z' then
             Char.ofNat ('x'.toNat - 'a'.toNat + 'A'.toNat)
           else 'x') :=
  c1_echo_case_transform.1 Kbd.init 'x' (by decide) (by decide) (by decide)

/-- C2 (counterexample): the claim states that a press always flips the
state and that two presses restore it, and cites kbd2.c's `usb_kbd_irq`;
but kbd2.c reports `LED_ON` for every press, so two presses from
capslock off leave both `capslockOn` and `ledOn` on, not off. -/
theorem c2_kbd2_press_is_not_a_toggle :
    (Kbd2.run Kbd2.init ['@', '@']).capslock_state = true ∧
    (Kbd2.run Kbd2.init ['@', '@']).dev_led = LED_ON ∧
    Kbd2.init.capslock_state = false ∧ Kbd2.init.dev_led = LED_OFF := by
  decide

/-- C3 (code bug): kbd.c's LED worker clears the URB's active flag
before writing the command byte, so a press-triggered
`usb_submit_urb(kbd.led_urb)` arriving while the worker awaits its ack
spawns a second worker; the schedule `doubleCmdSched` makes the second
worker write a command byte while the first command's acknowledgment is
still outstanding (two commands sent, zero acks read). -/
theorem c3_second_command_while_ack_outstanding :
    KbdConc.runActs (KbdConc.initC ['@']) KbdConc.doubleCmdSched
        = some KbdConc.doubleCmdState ∧
      KbdConc.doubleCmdState.violation = true ∧
      KbdConc.doubleCmdState.cmds_sent = 2 ∧
      KbdConc.doubleCmdState.acks_read = 0 := by
  decide

/-- C4 (counterexample): the claim states that submit starts asynchronous
work if and only if the Request is not already Submitted, and that a
duplicate submit is not an error; kbd2.c's `usb_submit_urb` creates no
worker for an inactive URB whose endpoint thread already exists, and
returns -1 (not a silent success) for an active one. -/
theorem c4_kbd2_submit_not_iff :
    ({ active := false, thread := 1 } : Kbd2.Urb).active = false ∧
    (Kbd2.usb_submit_urb { active := false, thread := 1 }).2.1 = false ∧
    (Kbd2.usb_submit_urb { active := true, thread := 1 }).2.2 = -1 := by
  decide

/-- C4 (amended): kbd.c's `usb_submit_urb` is exactly as claimed — a
silent no-op on an active URB, spawning a worker iff the URB is
inactive.  kbd2.c's `usb_submit_urb` leaves an active URB unchanged and
spawns nothing but returns -1, and spawns a worker iff the URB is
inactive and its endpoint thread has not yet been created. -/
theorem c4_submit_idempotent :
    (∀ u : Kbd.Urb, u.active = true → Kbd.usb_submit_urb u = (u, false)) ∧
      (∀ u : Kbd.Urb, (Kbd.usb_submit_urb u).2 = true ↔ u.active = false) ∧
      (∀ u : Kbd2.Urb, u.active = true →
        (Kbd2.usb_submit_urb u).1 = u ∧ (Kbd2.usb_submit_urb u).2.1 = false ∧
          (Kbd2.usb_submit_urb u).2.2 = -1) ∧
      (∀ u : Kbd2.Urb,
        (Kbd2.usb_submit_urb u).2.1 = true ↔ (u.active = false ∧ u.thread = 0)) := by
  refine ⟨fun u h => ?_, fun u => ?_, fun u h => ?_, fun u => ?_⟩
  · simp [Kbd.usb_submit_urb, h]
  · cases u with
    | mk t a => cases a <;> simp [Kbd.usb_submit_urb]
  · simp [Kbd2.usb_submit_urb, h]
  · cases u with
    | mk a t => cases a <;> simp [Kbd2.usb_submit_urb]

/-- C4 (witness): the kbd.c no-op case applied to a concrete active URB. -/
theorem c4_submit_idempotent_witness :
    Kbd.usb_submit_urb { endpoint_type := 1, active := true }
      = ({ endpoint_type := 1, active := true }, false) :=
  c4_submit_idempotent.1 { endpoint_type := 1, active := true } rfl

/-- C5 (counterexample): in kbd.c the event path only submits the LED
URB; the interrupt worker resubmits itself without waiting, so under
`noWaitSched` the byte after a press is read and echoed ('B' printed)
while no acknowledgment has been received — indeed before any command
byte has been sent at all. -/
theorem c5_kbd_next_byte_echoed_before_ack :
    KbdConc.runActs (KbdConc.initC ['@', 'b']) KbdConc.noWaitSched
        = some KbdConc.noWaitState ∧
      KbdConc.noWaitState.core.output = ['B'] ∧
      KbdConc.noWaitState.acks_read = 0 ∧
      KbdConc.noWaitState.cmds_sent = 0 := by
  decide

/-- C6 (counterexample): the claim states that a lone capslock release
with capslock off results in an interaction in which no command byte is
sent; but in kbd.c the release still runs `usb_kbd_event`, which submits
the LED URB, and the LED worker writes a command byte (schedule
`releaseCmdSched`: one command sent, no character output, no state
change). -/
theorem c6_kbd_release_sends_command :
    KbdConc.runActs (KbdConc.initC ['&']) KbdConc.releaseCmdSched
        = some KbdConc.releaseCmdState ∧
      KbdConc.releaseCmdState.cmds_sent = 1 ∧
      KbdConc.releaseCmdState.core.output = [] ∧
      KbdConc.releaseCmdState.core.capslock_state = false ∧
      KbdConc.releaseCmdState.core.dev_led = LED_OFF := by
  decide

/-- C6 (amended): a lone capslock release with capslock off produces no
character output and changes neither `capslockOn` nor `ledOn`; in
keyboard.c it is ignored outright (the trace contains only the byte
read — no command, no ack, no echo), while in kbd.c it nevertheless
triggers an LED URB submission (whose worker performs a full
command/ack exchange with the LED value unchanged). -/
theorem c6_release_no_output_no_state_change :
    (Keyboard.run Keyboard.init ['&']).2 = [Keyboard.Ev.readByte '&'] ∧
      (Keyboard.run Keyboard.init ['&']).1 = Keyboard.init ∧
      (Kbd.run Kbd.init ['&']).output = [] ∧
      (Kbd.run Kbd.init ['&']).capslock_state = false ∧
      (Kbd.run Kbd.init ['&']).dev_led = LED_OFF ∧
      (Kbd.run Kbd.init ['&']).leds_cell = LED_OFF ∧
      (Kbd.run Kbd.init ['&']).led_submits = 1 := by
  decide

/-- C8 (code bug): `cleanup_resources` releases every resource whose
guard (pointer / fd test) holds but never resets the guards, so from the
state reached by a first release a second invocation is not a no-op: it
re-frees the device and both URBs, re-unmaps both mappings, re-closes
all three descriptors and re-destroys the mutex — nine invalid
releases.  The first call performs none. -/
theorem c8_cleanup_not_idempotent :
    (Kbd1.cleanup_resources Kbd1.openedRes).2 = 0 ∧
      (Kbd1.cleanup_resources (Kbd1.cleanup_resources Kbd1.openedRes).1).2 = 9 ∧
      (Kbd1.cleanup_resources Kbd1.openedRes).1.dev.guard = true ∧
      (Kbd1.cleanup_resources Kbd1.openedRes).1.dev.live = false := by
  decide

/-- C2 (amended): in kbd.c (and identically kbd1.c / keyboard.c), on any
state of the capslock/LED machine (LED a valid 0/1 value mirrored by
`capslock_state`), one press flips both `dev->led` and `capslock_state`,
two presses restore both, and a release changes neither; the scenario
press,press from capslock off yields no character output and a final LED
state of off. -/
theorem c2_toggle_correctness :
    (∀ s : Kbd.DrvState,
        (s.dev_led = LED_OFF ∨ s.dev_led = LED_ON) →
        (s.capslock_state = true ↔ s.dev_led = LED_ON) →
          (Kbd.usb_kbd_irq s CAPSLOCK_PRESS).dev_led = 1 - s.dev_led ∧
            (Kbd.usb_kbd_irq s CAPSLOCK_PRESS).capslock_state = !s.capslock_state ∧
            (Kbd.usb_kbd_irq (Kbd.usb_kbd_irq s CAPSLOCK_PRESS) CAPSLOCK_PRESS).dev_led
              = s.dev_led ∧
            (Kbd.usb_kbd_irq (Kbd.usb_kbd_irq s CAPSLOCK_PRESS) CAPSLOCK_PRESS).capslock_state
              = s.capslock_state ∧
            (Kbd.usb_kbd_irq s CAPSLOCK_RELEASE).dev_led = s.dev_led ∧
            (Kbd.usb_kbd_irq s CAPSLOCK_RELEASE).capslock_state = s.capslock_state) ∧
      (Kbd.run Kbd.init ['@', '@']).output = [] ∧
      (Kbd.run Kbd.init ['@', '@']).leds_cell = LED_OFF ∧
      (Kbd.run Kbd.init ['@', '@']).capslock_state = false ∧
      (Kbd.run Kbd.init ['@', '@']).dev_led = LED_OFF := by
  refine ⟨fun s h1 h2 => ?_, by decide, by decide, by decide, by decide⟩
  have hc : s.capslock_state = (if s.dev_led = LED_ON then true else false) := by
    rcases h1 with h | h <;> cases hcs : s.capslock_state <;> simp_all [LED_ON, LED_OFF]
  rcases h1 with h | h <;>
    simp_all [Kbd.usb_kbd_irq, Kbd.input_report_key, Kbd.usb_kbd_event,
      CAPSLOCK_PRESS, CAPSLOCK_RELEASE, NO_EVENT, LED_ON, LED_OFF]

/-- C2 (witness): the toggle properties applied to the startup state. -/
theorem c2_toggle_correctness_witness :
    (Kbd.usb_kbd_irq Kbd.init CAPSLOCK_PRESS).dev_led = 1 - Kbd.init.dev_led ∧
      (Kbd.usb_kbd_irq Kbd.init CAPSLOCK_PRESS).capslock_state
        = !Kbd.init.capslock_state ∧
      (Kbd.usb_kbd_irq (Kbd.usb_kbd_irq Kbd.init CAPSLOCK_PRESS) CAPSLOCK_PRESS).dev_led
        = Kbd.init.dev_led ∧
      (Kbd.usb_kbd_irq (Kbd.usb_kbd_irq Kbd.init CAPSLOCK_PRESS) CAPSLOCK_PRESS).capslock_state
        = Kbd.init.capslock_state ∧
      (Kbd.usb_kbd_irq Kbd.init CAPSLOCK_RELEASE).dev_led = Kbd.init.dev_led ∧
      (Kbd.usb_kbd_irq Kbd.init CAPSLOCK_RELEASE).capslock_state
        = Kbd.init.capslock_state :=
  c2_toggle_correctness.1 Kbd.init (Or.inl rfl) (by decide)

/-- C5 (amended): in keyboard.c the interrupt path is synchronous — the
driver loop joins the irq thread, which joins the event thread that
writes the command byte and blocks on the acknowledgment — so for every
state and every continuation of the input, the trace of a press begins
with the byte read, the command send and the ack receive, all before any
operation of the remaining input (in particular before the next byte is
read and echoed). -/
theorem c5_keyboard_press_publish_blocks :
    ∀ (s : Keyboard.St) (rest : List Char),
      (Keyboard.run s (CAPSLOCK_PRESS :: rest)).2
        = Keyboard.Ev.readByte CAPSLOCK_PRESS :: Keyboard.Ev.sendCmd
            :: Keyboard.Ev.recvAck
            :: (Keyboard.run (Keyboard.usb_kbd_irq s CAPSLOCK_PRESS).1 rest).2 := by
  intro s rest
  simp [Keyboard.run, Keyboard.usb_kbd_irq, Keyboard.input_report_key,
    Keyboard.usb_kbd_event, CAPSLOCK_PRESS, CAPSLOCK_RELEASE, NO_EVENT]

/-- C7: for the kbd1.c workers, a failed or zero-length read (`none`) on
the interrupt or ack channel, or the end-of-stream sentinel on the
interrupt channel, is terminal: the worker sets `should_terminate` and
does not resubmit its Request (so the failed operation is never
retried). -/
theorem c7_terminal_conditions :
    ∀ s : Kbd1.KState,
      ((Kbd1.usb_kbd_irq s none).1.should_terminate = true ∧
          (Kbd1.usb_kbd_irq s none).2 = false) ∧
        ((Kbd1.usb_kbd_irq s (some END_OF_INPUT)).1.should_terminate = true ∧
          (Kbd1.usb_kbd_irq s (some END_OF_INPUT)).2 = false) ∧
        ((Kbd1.usb_kbd_led s none).1.should_terminate = true ∧
          (Kbd1.usb_kbd_led s none).2 = false) := by
  intro s
  cases hb : s.should_terminate <;> cases ht : s.terminate_flag <;>
    simp [Kbd1.usb_kbd_irq, Kbd1.usb_kbd_led, hb, ht, END_OF_INPUT]

/-- Helper for C9: kbd.c's `usb_kbd_event` leaves `dev->led` unchanged
and establishes the capslock/LED lockstep whenever the LED value is
valid. -/
lemma Kbd.usb_kbd_event_lockstep (s : Kbd.DrvState)
    (h : s.dev_led = LED_OFF ∨ s.dev_led = LED_ON) :
    Kbd.LedInv (Kbd.usb_kbd_event s) := by
  rcases h with h | h <;> cases hc : s.capslock_state <;>
    simp [Kbd.usb_kbd_event, Kbd.LedInv, LED_ON, LED_OFF, h, hc]

/-- Helper for C9: the lockstep invariant is preserved by every
interrupt-worker execution. -/
lemma Kbd.ledInv_irq (s : Kbd.DrvState) (ch : Char) (h : Kbd.LedInv s) :
    Kbd.LedInv (Kbd.usb_kbd_irq s ch) := by
  obtain ⟨h1, h2⟩ := h
  unfold Kbd.usb_kbd_irq
  by_cases e1 : ch = NO_EVENT
  · rw [if_pos e1]; exact ⟨h1, h2⟩
  rw [if_neg e1]
  by_cases e2 : ch = CAPSLOCK_PRESS
  · rw [if_pos e2]
    unfold Kbd.input_report_key
    rw [if_pos (Or.inl rfl)]
    apply Kbd.usb_kbd_event_lockstep
    rcases h1 with h | h <;> simp [h, LED_ON, LED_OFF]
  rw [if_neg e2]
  by_cases e3 : ch = CAPSLOCK_RELEASE
  · rw [if_pos e3]
    unfold Kbd.input_report_key
    rw [if_pos (Or.inr rfl)]
    apply Kbd.usb_kbd_event_lockstep
    exact h1
  · rw [if_neg e3]
    exact ⟨h1, h2⟩

/-- Helper for C9: the lockstep invariant is preserved by any run of the
interrupt-worker chain. -/
lemma Kbd.ledInv_run : ∀ (evs : List Char) (s : Kbd.DrvState),
    Kbd.LedInv s → Kbd.LedInv (Kbd.run s evs)
  | [], _, h => h
  | ch :: rest, s, h => Kbd.ledInv_run rest _ (Kbd.ledInv_irq s ch h)

/-- C9: in kbd.c, after processing any sequence of input bytes from the
startup state, `capslock_state` equals (`dev->led = LED_ON`): each event
(and hence each completed LED publish, which copies `dev->led` and
touches neither field) leaves the internal capslock state in lockstep
with the device LED state, at every observation point until the next
event. -/
theorem c9_capslock_led_lockstep :
    ∀ evs : List Char,
      ((Kbd.run Kbd.init evs).capslock_state = true
        ↔ (Kbd.run Kbd.init evs).dev_led = LED_ON) :=
  fun evs => (Kbd.ledInv_run evs Kbd.init ⟨Or.inl rfl, by decide⟩).2

/-- Helper for C10: kbd.c's `usb_kbd_event` stores only 0 or 1 to the
LED cell, under the lock. -/
lemma Kbd.cellInv_event (s : Kbd.DrvState) (h : Kbd.CellInv s) :
    Kbd.CellInv (Kbd.usb_kbd_event s) := by
  obtain ⟨h1, h2⟩ := h
  by_cases hl : s.dev_led ≠ 0 <;>
    simp [Kbd.usb_kbd_event, Kbd.CellInv, hl, LED_ON, LED_OFF,
      List.all_append, h2]

/-- Helper for C10: the cell invariant is preserved by every
interrupt-worker execution of kbd.c. -/
lemma Kbd.cellInv_irq (s : Kbd.DrvState) (ch : Char) (h : Kbd.CellInv s) :
    Kbd.CellInv (Kbd.usb_kbd_irq s ch) := by
  unfold Kbd.usb_kbd_irq
  by_cases e1 : ch = NO_EVENT
  · rw [if_pos e1]; exact h
  rw [if_neg e1]
  by_cases e2 : ch = CAPSLOCK_PRESS
  · rw [if_pos e2]
    unfold Kbd.input_report_key
    rw [if_pos (Or.inl rfl)]
    exact Kbd.cellInv_event _ h
  rw [if_neg e2]
  by_cases e3 : ch = CAPSLOCK_RELEASE
  · rw [if_pos e3]
    unfold Kbd.input_report_key
    rw [if_pos (Or.inr rfl)]
    exact Kbd.cellInv_event _ h
  · rw [if_neg e3]
    exact h

/-- Helper for C10: the cell invariant over any kbd.c run. -/
lemma Kbd.cellInv_run : ∀ (evs : List Char) (s : Kbd.DrvState),
    Kbd.CellInv s → Kbd.CellInv (Kbd.run s evs)
  | [], _, h => h
  | ch :: rest, s, h => Kbd.cellInv_run rest _ (Kbd.cellInv_irq s ch h)

/-- Helper for C10: kbd1.c's `usb_kbd_event` stores only 0 or 1 to the
LED cell, under the lock. -/
lemma Kbd1.cellInvK_event (s : Kbd1.KState) (h : Kbd1.CellInv s) :
    Kbd1.CellInv (Kbd1.usb_kbd_event s) := by
  obtain ⟨h1, h2⟩ := h
  by_cases hl : s.dev_led ≠ 0 <;>
    simp [Kbd1.usb_kbd_event, Kbd1.CellInv, hl, LED_ON, LED_OFF,
      List.all_append, h2]

/-- Helper for C10: the cell invariant is preserved by every
interrupt-worker execution of kbd1.c. -/
lemma Kbd1.cellInvK_irq (s : Kbd1.KState) (r : Option Char) (h : Kbd1.CellInv s) :
    Kbd1.CellInv (Kbd1.usb_kbd_irq s r).1 := by
  unfold Kbd1.usb_kbd_irq
  split
  · exact h
  split
  · exact h
  rename_i ch
  by_cases e0 : ch = END_OF_INPUT
  · rw [if_pos e0]; exact h
  rw [if_neg e0]
  by_cases e1 : ch = NO_EVENT
  · rw [if_pos e1]; exact h
  rw [if_neg e1]
  by_cases e2 : ch = CAPSLOCK_PRESS
  · rw [if_pos e2]
    unfold Kbd1.input_report_key
    rw [if_pos (Or.inl rfl)]
    exact Kbd1.cellInvK_event _ h
  rw [if_neg e2]
  by_cases e3 : ch = CAPSLOCK_RELEASE
  · rw [if_pos e3]
    unfold Kbd1.input_report_key
    rw [if_pos (Or.inr rfl)]
    exact Kbd1.cellInvK_event _ h
  · rw [if_neg e3]
    exact h

/-- Helper for C10: the cell invariant over any kbd1.c run. -/
lemma Kbd1.cellInvK_run : ∀ (rs : List (Option Char)) (s : Kbd1.KState),
    Kbd1.CellInv s → Kbd1.CellInv (Kbd1.run s rs)
  | [], _, h => h
  | r :: rest, s, h => by
    unfold Kbd1.run
    by_cases hp : (Kbd1.usb_kbd_irq s r).2 = true
    · rw [if_pos hp]
      exact Kbd1.cellInvK_run rest _ (Kbd1.cellInvK_irq s r h)
    · rw [if_neg hp]
      exact Kbd1.cellInvK_irq s r h

/-- C10: in kbd.c and kbd1.c the shared LED cell starts at 0 and, over
any run from the startup state, holds only 0 or 1; every driver-side
store to it logged along the way stored exactly 0 or 1 (computed as
`led ? LED_ON : LED_OFF`) while holding `leds_lock`. -/
theorem c10_shared_led_cell_binary :
    Kbd.init.leds_cell = 0 ∧ Kbd1.initK.leds_cell = 0 ∧
      (∀ evs : List Char, Kbd.CellInv (Kbd.run Kbd.init evs)) ∧
      (∀ rs : List (Option Char), Kbd1.CellInv (Kbd1.run Kbd1.initK rs)) :=
  ⟨rfl, rfl,
    fun evs => Kbd.cellInv_run evs Kbd.init ⟨Or.inl rfl, rfl⟩,
    fun rs => Kbd1.cellInvK_run rs Kbd1.initK ⟨Or.inl rfl, rfl⟩⟩
